import Mathlib

/-!
Shallow embedding of the EasyTransfer TUS upload server core:
the TUS protocol handler (`etransfer/server/tus/handler.py`), the storage
layer (`etransfer/server/tus/storage.py`), the protocol models
(`etransfer/server/tus/models.py`) and the download route
(`easytransfer/server/routes/files.py`).

Python `int` values are modelled as `Int`, byte strings as `List Nat`,
HTTP headers as `Option String` request fields and `List (String × String)`
response fields.  The state store (upload records, completed-file records,
locks) and the filesystem (uploads/ and files/ directories) are modelled as
association lists inside `ServerState`.  External oracles (hashlib digests,
base64 decoding) are parameters of the corresponding functions.
-/

namespace EasyTransfer

/-- Modelled from the spec: `etransfer/common/constants.py` is not in the
source tree; the spec fixes the TUS version string to `1.0.0`. -/
def TUS_VERSION : String := "1.0.0"

/-- Modelled from the spec: the required PATCH content type
`application/offset+octet-stream` (constants.py absent). -/
def CONTENT_TYPE_OFFSET : String := "application/offset+octet-stream"

/-- Modelled from the spec: default upload expiration of 24 h
(`upload_expiration_seconds`, constants.py absent). -/
def UPLOAD_EXPIRATION_SECONDS : Int := 86400

/-- Extension list from `TusCapabilities` in models.py. -/
def tusExtensions : List String :=
  ["creation", "creation-with-upload", "termination", "checksum", "expiration"]

/-- Truthiness of an optional header string, as Python evaluates
`if header_value:` — absent and empty are both falsy. -/
def truthy : Option String → Bool
  | none => false
  | some s => s != ""

/-- ASCII whitespace for Python `str.strip()`. -/
def isSpaceChar (c : Char) : Bool :=
  (c == ' ') || (c == '\t') || (c == '\n') || (c == '\r') ||
    (c == '\x0b') || (c == '\x0c')

/-- Python `str.strip()` on the character list. -/
def trimChars (l : List Char) : List Char :=
  ((l.dropWhile isSpaceChar).reverse.dropWhile isSpaceChar).reverse

/-- Python `str.strip()`. -/
def pyStrip (s : String) : String := String.mk (trimChars s.data)

/-- Splitting on a single-character separator, Python `str.split(sep)`
semantics (the result always has one more part than there are
separators). -/
def splitOnCharAux : List Char → Char → List Char × List (List Char)
  | [], _ => ([], [])
  | x :: xs, c =>
    let r := splitOnCharAux xs c
    if x == c then ([], r.1 :: r.2) else (x :: r.1, r.2)

/-- Python `s.split(sep)` for a one-character separator. -/
def pySplit (s : String) (sep : Char) : List String :=
  let r := splitOnCharAux s.data sep
  (r.1 :: r.2).map String.mk

/-- Python `s.split(sep, 1)` when the separator occurs (split at the first
occurrence); `none` when it does not (a two-target unpack then raises
`ValueError`). -/
def splitOnceChars : List Char → Char → Option (List Char × List Char)
  | [], _ => none
  | x :: xs, c =>
    if x == c then some ([], xs)
    else
      match splitOnceChars xs c with
      | some r => some (x :: r.1, r.2)
      | none => none

/-- Python `s.split(sep, 1)` for a one-character separator, as a pair. -/
def pySplit1 (s : String) (sep : Char) : Option (String × String) :=
  (splitOnceChars s.data sep).map (fun r => (String.mk r.1, String.mk r.2))

/-- ASCII digit test. -/
def isDigitChar (c : Char) : Bool := ('0' ≤ c) && (c ≤ '9')

/-- Decimal value of a digit list. -/
def digitsVal (l : List Char) : Nat :=
  l.foldl (fun acc c => acc * 10 + (c.toNat - Char.toNat '0')) 0

/-- Python `int(s)`: optional surrounding whitespace, optional sign, then
decimal digits.  (Underscore separators and non-ASCII digits are not
modelled; none of the inputs considered here use them.) -/
def pyParseInt (s : String) : Option Int :=
  let t := trimChars s.data
  let signDigits : Int × List Char :=
    match t with
    | '-' :: rest => ((-1 : Int), rest)
    | '+' :: rest => ((1 : Int), rest)
    | _ => ((1 : Int), t)
  if decide (0 < signDigits.2.length) && signDigits.2.all isDigitChar then
    some (signDigits.1 * (digitsVal signDigits.2 : Int))
  else none

/-- ASCII lower-casing of one character (Python `str.lower()` on the tags
used here). -/
def lowerChar (c : Char) : Char :=
  if ('A' ≤ c) ∧ (c ≤ 'Z') then Char.ofNat (c.toNat + 32) else c

/-- Python `str.lower()`. -/
def pyLower (s : String) : String := String.mk (s.data.map lowerChar)

/-- Replace every occurrence of `pat`, left to right, non-overlapping
(fuel-structured recursion; the fuel is the input length, enough since
every step consumes at least one character). -/
def replaceFuel : Nat → List Char → List Char → List Char → List Char
  | 0, _, _, _ => []
  | _ + 1, [], _, _ => []
  | fuel + 1, x :: xs, pat, rep =>
    if pat.isPrefixOf (x :: xs) && decide (0 < pat.length) then
      rep ++ replaceFuel fuel ((x :: xs).drop pat.length) pat rep
    else x :: replaceFuel fuel xs pat rep

/-- Python `s.replace(pat, rep)` (for the non-empty patterns used here). -/
def pyReplace (s pat rep : String) : String :=
  String.mk (replaceFuel s.data.length s.data pat.data rep.data)

/-- Python `s.rstrip("/")`. -/
def pyRstripSlashes (s : String) : String :=
  String.mk ((s.data.reverse.dropWhile (fun c => c == '/')).reverse)

/-- Python `a.startswith(b)`. -/
def pyStartsWith (s pre : String) : Bool := List.isPrefixOf pre.data s.data

/-- Python `",".join(l)`. -/
def joinComma : List String → String
  | [] => ""
  | x :: xs => xs.foldl (fun acc y => acc ++ "," ++ y) x

/-- Association-list lookup (first match wins). -/
def alookup {α : Type} : List (String × α) → String → Option α
  | [], _ => none
  | (k0, v) :: rest, k => if k0 = k then some v else alookup rest k

/-- Association-list update: a single binding for the key remains. -/
def aset {α : Type} (l : List (String × α)) (k : String) (v : α) :
    List (String × α) :=
  (k, v) :: l.filter (fun p => p.1 != k)

/-- Association-list deletion. -/
def adel {α : Type} (l : List (String × α)) (k : String) : List (String × α) :=
  l.filter (fun p => p.1 != k)

/-- The upload record (`TusUpload` in models.py).  `owner_id` is
Modelled from the spec: models.py in the source tree does not declare this
field although storage.py reads it; spec §3 lists `owner_id` as an
upload-record field that may be null. -/
structure TusUpload where
  file_id : String
  filename : String
  size : Int
  offset : Int
  created_at : Int
  updated_at : Int
  expires_at : Option Int
  is_final : Bool
  storage_path : String
  checksum : Option String
  mime_type : Option String
  retention : String
  retention_ttl : Option Int
  retention_expires_at : Option Int
  download_count : Int
  owner_id : Option String
deriving Repr, DecidableEq

/-- The completed-file record written by `finalize_upload`. -/
structure FileRec where
  file_id : String
  filename : String
  size : Int
  available_size : Int
  mime_type : Option String
  checksum : Option String
  is_complete : Bool
  created_at : Int
  completed_at : Int
  storage_path : String
  retention : String
  retention_ttl : Option Int
  retention_expires_at : Option Int
  download_count : Int
  owner_id : Option String
deriving Repr, DecidableEq

/-- The shared world: the state store (upload records, file records, lock
keys, keyed by `file_id` — the fixed key string prefixes are dropped since
they are injective) and the bytes under `uploads/` and `files/`. -/
structure ServerState where
  uploads : List (String × TusUpload)
  fileRecs : List (String × FileRec)
  locks : List String
  fsUploads : List (String × List Nat)
  fsFiles : List (String × List Nat)
deriving Repr, DecidableEq

/-- Write `data` into `content` at byte offset `off` (Python file seek +
write semantics: zero padding past EOF, overwrite then keep the tail). -/
def writeAt (content : List Nat) (off : Nat) (data : List Nat) : List Nat :=
  (content.take off ++ List.replicate (off - content.length) 0) ++ data ++
    content.drop (off + data.length)

/-- Failure modes of `write_chunk` (exceptions in the Python code). -/
inductive WriteErr where
  | lockContention
  | fileMissing
  | badSeek
deriving Repr, DecidableEq

/-- `TusStorage.write_chunk`: acquire the per-upload lock (two attempts
against the same state; contention raises `RuntimeError`), then inside
`try/finally`: stat the file (missing file raises), choose `r+b` when the
file is non-empty else `ab`, seek and write, and release the lock in the
`finally` block on every path. -/
def writeChunk (st : ServerState) (fid : String) (data : List Nat)
    (off : Int) : Except WriteErr Nat × ServerState :=
  if fid ∈ st.locks then
    (Except.error WriteErr.lockContention, st)
  else
    let locks1 := fid :: st.locks
    match alookup st.fsUploads fid with
    | none =>
        (Except.error WriteErr.fileMissing, { st with locks := locks1.erase fid })
    | some content =>
        if content.length > 0 then
          if off < 0 then
            (Except.error WriteErr.badSeek, { st with locks := locks1.erase fid })
          else
            (Except.ok data.length,
              { st with
                  fsUploads := aset st.fsUploads fid (writeAt content off.toNat data),
                  locks := locks1.erase fid })
        else
          (Except.ok data.length,
            { st with
                fsUploads := aset st.fsUploads fid (content ++ data),
                locks := locks1.erase fid })

/-- Quota snapshot returned by `get_storage_usage` (the fields the TUS
handler reads; `files_count` / `uploads_count` are not consumed by any
modelled path). -/
structure StorageUsage where
  used : Nat
  maxSize : Option Nat
  available : Option Nat
deriving Repr, DecidableEq

/-- Total on-disk bytes under `uploads/` and `files/`. -/
def storageUsed (st : ServerState) : Nat :=
  (st.fsUploads.map (fun p => p.2.length)).sum +
    (st.fsFiles.map (fun p => p.2.length)).sum

/-- `get_storage_usage`: Python evaluates `if self.max_storage_size:`, so a
configured maximum of 0 behaves like an unlimited quota. -/
def getStorageUsage (maxStorage : Option Nat) (st : ServerState) : StorageUsage :=
  let used := storageUsed st
  match maxStorage with
  | some m =>
      if m ≠ 0 then
        { used := used, maxSize := maxStorage, available := some (m - used) }
      else
        { used := used, maxSize := maxStorage, available := none }
  | none => { used := used, maxSize := none, available := none }

/-- `check_quota(additional_bytes)`: `(allowed, usage)`. -/
def checkQuota (maxStorage : Option Nat) (st : ServerState) (additional : Nat) :
    Bool × StorageUsage :=
  let usage := getStorageUsage maxStorage st
  match maxStorage with
  | none => (true, usage)
  | some m =>
      if m = 0 then (true, usage)
      else (decide (usage.used + additional ≤ m), usage)

/-- `delete_upload`: drop both state records, the uploads-directory file,
every files-directory entry whose name starts with `file_id` (the targeted
`<file_id>_<filename>` removal is subsumed by that scan), and the lock. -/
def deleteUpload (st : ServerState) (fid : String) : ServerState :=
  { uploads := adel st.uploads fid
    fileRecs := adel st.fileRecs fid
    locks := st.locks.erase fid
    fsUploads := adel st.fsUploads fid
    fsFiles := st.fsFiles.filter (fun p => !(pyStartsWith p.1 fid)) }

/-- `finalize_upload`: `ValueError` (modelled as `Except.error`) when the
record is missing or `offset < size`; otherwise move the bytes to
`files/<file_id>_<filename>`, compute the TTL retention expiry (Python
truthiness: a `retention_ttl` of 0 sets no expiry), write the
completed-file record, and update the upload record. -/
def finalizeUpload (now : Int) (st : ServerState) (fid : String) :
    Except Unit ServerState :=
  match alookup st.uploads fid with
  | none => Except.error ()
  | some u =>
    if u.offset < u.size then Except.error ()
    else
      let dstName := fid ++ "_" ++ u.filename
      let moved : List (String × List Nat) × List (String × List Nat) :=
        match alookup st.fsUploads fid with
        | some content => (adel st.fsUploads fid, aset st.fsFiles dstName content)
        | none => (st.fsUploads, st.fsFiles)
      let retExp : Option Int :=
        match u.retention_ttl with
        | some t => if u.retention = "ttl" ∧ t ≠ 0 then some (now + t) else none
        | none => none
      let frec : FileRec :=
        { file_id := fid
          filename := u.filename
          size := u.size
          available_size := u.size
          mime_type := u.mime_type
          checksum := u.checksum
          is_complete := true
          created_at := u.created_at
          completed_at := now
          storage_path := "files/" ++ dstName
          retention := u.retention
          retention_ttl := u.retention_ttl
          retention_expires_at := retExp
          download_count := 0
          owner_id := u.owner_id }
      let u2 : TusUpload :=
        { u with
            retention_expires_at :=
              match retExp with
              | some e => some e
              | none => u.retention_expires_at
            is_final := true
            storage_path := "files/" ++ dstName
            updated_at := now }
      Except.ok
        { st with
            uploads := aset st.uploads fid u2
            fileRecs := aset st.fileRecs fid frec
            fsUploads := moved.1
            fsFiles := moved.2 }

/-- Normalized record view produced by `get_file_info`. -/
structure FileInfoView where
  file_id : String
  filename : String
  size : Int
  available_size : Int
  mime_type : Option String
  checksum : Option String
  is_complete : Bool
  retention : String
  retention_ttl : Option Int
  retention_expires_at : Option Int
  download_count : Int
deriving Repr, DecidableEq

/-- `get_file_info`: the completed-file record wins; otherwise project the
upload record with `available_size = offset` and
`is_complete = (offset ≥ size)`. -/
def getFileInfo (st : ServerState) (fid : String) : Option FileInfoView :=
  match alookup st.fileRecs fid with
  | some f =>
      some
        { file_id := f.file_id, filename := f.filename, size := f.size
          available_size := f.available_size, mime_type := f.mime_type
          checksum := f.checksum, is_complete := f.is_complete
          retention := f.retention, retention_ttl := f.retention_ttl
          retention_expires_at := f.retention_expires_at
          download_count := f.download_count }
  | none =>
    match alookup st.uploads fid with
    | some u =>
        some
          { file_id := fid, filename := u.filename, size := u.size
            available_size := u.offset, mime_type := u.mime_type
            checksum := u.checksum, is_complete := decide (u.offset ≥ u.size)
            retention := u.retention, retention_ttl := u.retention_ttl
            retention_expires_at := u.retention_expires_at
            download_count := u.download_count }
    | none => none

/-- Parsed `Upload-Metadata` (`TusMetadata` in models.py). -/
structure TusMetadata where
  filename : String
  filetype : Option String
  checksum : Option String
  retention : Option String
  retention_ttl : Option Int
deriving Repr, DecidableEq

/-- One pass of `TusMetadata.from_header` over the comma-separated items:
blank items are skipped, an item without a space is a bare key mapped to
`""`, and a value whose base64 decode (the oracle `b64`, `none` = raise)
fails is kept as the raw string.  Later duplicates overwrite. -/
def parseMetaPairs (b64 : String → Option String) (header : String) :
    List (String × String) :=
  (pySplit header ',').foldl
    (fun acc rawItem =>
      let item := pyStrip rawItem
      if item = "" then acc
      else
        match pySplit1 item ' ' with
        | some (k, v) =>
            aset acc (pyStrip k)
              (match b64 (pyStrip v) with
               | some decoded => decoded
               | none => pyStrip v)
        | none => aset acc item "")
    []

/-- `TusMetadata.from_header`: `ValueError` (modelled as `Except.error`) on
an empty header, a missing `filename` key, or a non-integer
`retention_ttl`; an empty `retention_ttl` string is falsy and yields no
TTL. -/
def metaFromHeader (b64 : String → Option String) (header : String) :
    Except Unit TusMetadata :=
  if header = "" then Except.error ()
  else
    let pairs := parseMetaPairs b64 header
    match alookup pairs "filename" with
    | none => Except.error ()
    | some fn =>
      let ttlParsed : Except Unit (Option Int) :=
        match alookup pairs "retention_ttl" with
        | some v =>
            if v = "" then Except.ok none
            else
              match pyParseInt v with
              | some n => Except.ok (some n)
              | none => Except.error ()
        | none => Except.ok none
      match ttlParsed with
      | Except.error _ => Except.error ()
      | Except.ok ttl =>
          Except.ok
            { filename := fn
              filetype := alookup pairs "filetype"
              checksum := alookup pairs "checksum"
              retention := alookup pairs "retention"
              retention_ttl := ttl }

/-- Per-token retention policy entry.  Python reads `tp.get(key, default)`;
a key explicitly present with value `None` is not distinguishable from an
absent key in this model (no modelled path depends on that). -/
structure TokenPolicy where
  default_retention : Option String
  default_ttl : Option Int
deriving Repr, DecidableEq

/-- Retention configuration read from `app.state.settings`. -/
structure Settings where
  default_retention : String
  default_retention_ttl : Option Int
  token_retention_policies : List (String × TokenPolicy)
deriving Repr, DecidableEq

/-- Retention resolution in `tus_create`: client metadata first (Python
truthiness: an empty retention string falls through), then the per-token
policy, then the server default; unrecognized values fall back to
`permanent`. -/
def resolveRetention (s : Settings) (authToken : Option String)
    (mRet : Option String) (mTtl : Option Int) : String × Option Int :=
  let fallback : String × Option Int :=
    let token := authToken.getD ""
    match (if token ≠ "" then alookup s.token_retention_policies token else none) with
    | some tp =>
        (tp.default_retention.getD s.default_retention,
         if mTtl = none then
           (match tp.default_ttl with
            | some t => some t
            | none => s.default_retention_ttl)
         else mTtl)
    | none =>
        (s.default_retention,
         if mTtl = none then s.default_retention_ttl else mTtl)
  let resolved : String × Option Int :=
    match mRet with
    | some r => if r ≠ "" then (r, mTtl) else fallback
    | none => fallback
  if resolved.1 = "permanent" ∨ resolved.1 = "download_once" ∨ resolved.1 = "ttl" then
    resolved
  else ("permanent", resolved.2)

/-- HTTP response: status plus the headers the handler sets explicitly
(error responses raised as exceptions carry no modelled headers; response
bodies are not modelled). -/
structure HttpResponse where
  status : Nat
  headers : List (String × String)
deriving Repr, DecidableEq

/-- `get_tus_headers()`. -/
def tusResponseHeaders : List (String × String) :=
  [("Tus-Resumable", TUS_VERSION), ("Tus-Version", TUS_VERSION)]

/-- Response for a raised `HTTPException` / `TusError`. -/
def errResp (code : Nat) : HttpResponse := { status := code, headers := [] }

/-- `validate_tus_version`: Python `if tus_version and tus_version != TUS_VERSION`
— an absent or empty header is falsy and passes.  On a mismatch it raises
`TusErrors.invalid_version()`, a `TusError` carrying status 412; but
`TusError` is a plain `Exception` (not an `HTTPException`) and no
exception handler for it is registered in main.py, so the raise surfaces
as HTTP 500, like every other uncaught exception. -/
def versionBad (h : Option String) : Bool :=
  match h with
  | some v => v != "" && v != TUS_VERSION
  | none => false

/-- The hashlib digest oracles used by the checksum extension. -/
structure HashFns where
  sha1 : List Nat → String
  sha256 : List Nat → String
  md5 : List Nat → String

/-- The checksum dispatch in `tus_patch`: the algorithm tag is lowered
before comparison; `none` means an unsupported algorithm. -/
def computeDigest (h : HashFns) (algo : String) (data : List Nat) :
    Option String :=
  if pyLower algo = "sha256" then some (h.sha256 data)
  else if pyLower algo = "sha1" then some (h.sha1 data)
  else if pyLower algo = "md5" then some (h.md5 data)
  else none

/-- Server-side configuration consumed by the TUS router. -/
structure Config where
  maxSize : Option Int
  maxStorage : Option Nat
  settings : Settings

/-- The expiry test `upload.expires_at and upload.expires_at < utcnow()`
(an absent expiry is falsy). -/
def expired (e : Option Int) (now : Int) : Bool :=
  match e with
  | some t => decide (t < now)
  | none => false

/-- Request shape for POST `/tus`. -/
structure CreateRequest where
  tusResumable : Option String
  uploadLength : Option String
  uploadMetadata : Option String
  contentType : Option String
  authToken : Option String
  body : List Nat
  url : String
deriving Repr, DecidableEq

/-- Request shape for HEAD / DELETE `/tus/{id}` (only the version header
matters). -/
structure SimpleRequest where
  tusResumable : Option String
deriving Repr, DecidableEq

/-- Request shape for PATCH `/tus/{id}`. -/
structure PatchRequest where
  tusResumable : Option String
  contentType : Option String
  uploadOffset : Option String
  uploadChecksum : Option String
  body : List Nat
deriving Repr, DecidableEq

/-- `tus_options`: 204 with capability headers; note that the handler does
not call `validate_tus_version`. -/
def tusOptions (cfg : Config) (_req : SimpleRequest) : HttpResponse :=
  let base := tusResponseHeaders ++
    [("Tus-Extension", joinComma tusExtensions)]
  let headers :=
    match cfg.maxSize with
    | some m => if m ≠ 0 then base ++ [("Tus-Max-Size", toString m)] else base
    | none => base
  { status := 204, headers := headers }

/-- The max-size gate in `tus_create`: Python
`if max_size and upload_length > max_size` (a configured maximum of 0 is
falsy). -/
def tooLargeCheck (maxSize : Option Int) (n : Int) : Bool :=
  match maxSize with
  | some m => (m != 0) && decide (n > m)
  | none => false

/-- `tus_create` (POST): version check, `Upload-Length` parse, max-size
check, metadata parse (a missing or empty `Upload-Metadata` header
generates the filename `upload_<freshName>`), retention resolution, record
and empty-file creation, then the creation-with-upload initial chunk when
the body is non-empty and `Content-Type` is the offset stream type.
`freshId` stands for `uuid4().hex` and `freshName` for the random filename
suffix; `now` for `datetime.utcnow()`. -/
def tusCreate (cfg : Config) (b64 : String → Option String) (now : Int)
    (freshId freshName : String) (st : ServerState) (req : CreateRequest) :
    HttpResponse × ServerState :=
  if versionBad req.tusResumable then (errResp 500, st)
  else if !truthy req.uploadLength then (errResp 400, st)
  else
    match pyParseInt (req.uploadLength.getD "") with
    | none => (errResp 400, st)
    | some uploadLength =>
      if tooLargeCheck cfg.maxSize uploadLength then (errResp 413, st)
      else
        let mh := req.uploadMetadata.getD ""
        let md? : Except Unit TusMetadata :=
          if mh ≠ "" then metaFromHeader b64 mh
          else
            Except.ok
              { filename := "upload_" ++ freshName, filetype := none
                checksum := none, retention := none, retention_ttl := none }
        match md? with
        | Except.error _ => (errResp 400, st)
        | Except.ok md =>
          let ret := resolveRetention cfg.settings req.authToken md.retention md.retention_ttl
          let upload : TusUpload :=
            { file_id := freshId
              filename := md.filename
              size := uploadLength
              offset := 0
              created_at := now
              updated_at := now
              expires_at := some (now + UPLOAD_EXPIRATION_SECONDS)
              is_final := false
              storage_path := "uploads/" ++ freshId
              checksum := md.checksum
              mime_type := md.filetype
              retention := ret.1
              retention_ttl := ret.2
              retention_expires_at := none
              download_count := 0
              owner_id := none }
          let st1 : ServerState :=
            { st with
                uploads := aset st.uploads freshId upload
                fsUploads := aset st.fsUploads freshId [] }
          let location := pyRstripSlashes req.url ++ "/" ++ freshId
          let respond (u : TusUpload) (stFinal : ServerState) :
              HttpResponse × ServerState :=
            let headers := tusResponseHeaders ++
              [("Location", location), ("Upload-Offset", toString u.offset)] ++
              (match u.expires_at with
               | some t => [("Upload-Expires", toString t)]
               | none => [])
            ({ status := 201, headers := headers }, stFinal)
          if req.body ≠ [] ∧ "creation-with-upload" ∈ tusExtensions ∧
              req.contentType = some CONTENT_TYPE_OFFSET then
            match writeChunk st1 freshId req.body 0 with
            | (Except.error _, st2) => (errResp 500, st2)
            | (Except.ok _, st2) =>
                let u2 := { upload with offset := (req.body.length : Int), updated_at := now }
                respond u2 { st2 with uploads := aset st2.uploads freshId u2 }
          else respond upload st1

/-- `tus_head`: 404 when unknown, delete-and-410 when expired, otherwise
200 with offset, length, expiry and `Cache-Control: no-store`. -/
def tusHead (now : Int) (st : ServerState) (fid : String) (req : SimpleRequest) :
    HttpResponse × ServerState :=
  if versionBad req.tusResumable then (errResp 500, st)
  else
    match alookup st.uploads fid with
    | none => (errResp 404, st)
    | some u =>
      if expired u.expires_at now then
        (errResp 410, deleteUpload st fid)
      else
        let headers := tusResponseHeaders ++
          [("Upload-Offset", toString u.offset), ("Upload-Length", toString u.size)] ++
          (match u.expires_at with
           | some t => [("Upload-Expires", toString t)]
           | none => []) ++
          [("Cache-Control", "no-store")]
        ({ status := 200, headers := headers }, st)

/-- `tus_delete`: 404 when unknown, otherwise delete everything and 204. -/
def tusDelete (st : ServerState) (fid : String) (req : SimpleRequest) :
    HttpResponse × ServerState :=
  if versionBad req.tusResumable then (errResp 500, st)
  else
    match alookup st.uploads fid with
    | none => (errResp 404, st)
    | some _ =>
        ({ status := 204, headers := tusResponseHeaders }, deleteUpload st fid)

/-- The tail of `tus_patch` after a successful chunk write: stamp the new
offset and `updated_at`, set `is_final` when the upload is complete,
persist the record, then finalize when final (a `finalize_upload`
`ValueError` would surface as 500), and answer 204. -/
def patchFinish (now : Int) (st2 : ServerState) (fid : String) (u : TusUpload)
    (newOffset : Int) : HttpResponse × ServerState :=
  let u2 : TusUpload :=
    { u with
        offset := newOffset
        updated_at := now
        is_final := if newOffset ≥ u.size then true else u.is_final }
  let st3 := { st2 with uploads := aset st2.uploads fid u2 }
  let headers := tusResponseHeaders ++
    [("Upload-Offset", toString newOffset)] ++
    (match u2.expires_at with
     | some t => [("Upload-Expires", toString t)]
     | none => [])
  if u2.is_final then
    match finalizeUpload now st3 fid with
    | Except.ok st4 => ({ status := 204, headers := headers }, st4)
    | Except.error _ => (errResp 500, st3)
  else ({ status := 204, headers := headers }, st3)

/-- `tus_patch`: the full chunk-upload pipeline — version (an uncaught
`TusError` surfaces as 500), content type,
record lookup, expiry, offset header, empty body, quota (507 with storage
headers), size bound, checksum extension (a checksum header without a
space raises an uncaught `ValueError`, hence 500), chunk write (any
`write_chunk` exception surfaces as 500), record update and finalization. -/
def tusPatch (h : HashFns) (cfg : Config) (now : Int) (st : ServerState)
    (fid : String) (req : PatchRequest) : HttpResponse × ServerState :=
  if versionBad req.tusResumable then (errResp 500, st)
  else if req.contentType ≠ some CONTENT_TYPE_OFFSET then (errResp 415, st)
  else
    match alookup st.uploads fid with
    | none => (errResp 404, st)
    | some u =>
      if expired u.expires_at now then
        (errResp 410, deleteUpload st fid)
      else if !truthy req.uploadOffset then (errResp 400, st)
      else
        match pyParseInt (req.uploadOffset.getD "") with
        | none => (errResp 400, st)
        | some reqOffset =>
          if reqOffset ≠ u.offset then (errResp 409, st)
          else if req.body = [] then (errResp 400, st)
          else
            let quota := checkQuota cfg.maxStorage st req.body.length
            if !quota.1 then
              let usage := quota.2
              let headers := tusResponseHeaders ++
                [("Upload-Offset", toString u.offset),
                 ("Retry-After", "10"),
                 ("X-Storage-Used", toString usage.used),
                 ("X-Storage-Max",
                   match usage.maxSize with
                   | some m => toString m
                   | none => "None"),
                 ("X-Storage-Available", toString (usage.available.getD 0))]
              ({ status := 507, headers := headers }, st)
            else if reqOffset + (req.body.length : Int) > u.size then (errResp 400, st)
            else
              let checksumGate : Option HttpResponse :=
                match req.uploadChecksum with
                | none => none
                | some s =>
                  match pySplit1 s ' ' with
                  | none => some (errResp 500)
                  | some (algo, expected) =>
                    match computeDigest h algo req.body with
                    | none => some (errResp 400)
                    | some actual =>
                        if actual ≠ expected then some (errResp 460) else none
              match checksumGate with
              | some resp => (resp, st)
              | none =>
                match writeChunk st fid req.body reqOffset with
                | (Except.error _, st2) => (errResp 500, st2)
                | (Except.ok _, st2) =>
                    patchFinish now st2 fid u (reqOffset + (req.body.length : Int))

/-- The Range-header parsing and validation block of `download_file`,
applied to the header value with `bytes=` stripped: split on every `-`,
an empty lower bound keeps 0, an empty upper bound keeps
`available − 1`, the upper bound is clamped to `available − 1`; a parse
failure, `start ≥ available` or `start > end` is `none` (416). -/
def parseRangeSpec (available : Int) (spec : String) : Option (Int × Int) :=
  match pySplit spec '-' with
  | a :: b :: _ =>
    let s? : Option Int := if a ≠ "" then pyParseInt a else some 0
    let e? : Option Int :=
      if b ≠ "" then (pyParseInt b).map (fun x => min x (available - 1))
      else some (available - 1)
    match s?, e? with
    | some s, some e =>
        if s ≥ available ∨ s > e then none else some (s, e)
    | _, _ => none
  | _ =>
      if (0 : Int) ≥ available ∨ (0 : Int) > available - 1 then none
      else some (0, available - 1)

/-- `download_file` (`easytransfer/server/routes/files.py`): Range parsing
(`bytes=` stripped, split on every `-`, empty bounds keep the defaults, a
parse failure or an unsatisfiable range is 416 — validation only runs when
a Range header is present), then 206 whenever a Range header was supplied
or the file is still incomplete, else 200.  The streamed body and the
background download-once deletion task are not modelled; the response
status and headers are. -/
def downloadFile (st : ServerState) (fid : String)
    (rangeHeader : Option String) : HttpResponse :=
  match getFileInfo st fid with
  | none => errResp 404
  | some info =>
    let available := info.available_size
    let total := info.size
    let hasRange := truthy rangeHeader
    let parsed : Option (Int × Int) :=
      if hasRange then
        parseRangeSpec available (pyReplace (rangeHeader.getD "") "bytes=" "")
      else some (0, available - 1)
    match parsed with
    | none => errResp 416
    | some se =>
      let s := se.1
      let e := se.2
      let contentLength := e - s + 1
      let isFull : Bool := (s == 0) && (e == available - 1)
      let headers :=
        [("Content-Disposition",
            "attachment; filename=\x22" ++ info.filename ++ "\x22"),
         ("Accept-Ranges", "bytes"),
         ("Content-Length", toString contentLength),
         ("X-Retention-Policy", info.retention)] ++
        (match info.retention_expires_at with
         | some t => [("X-Retention-Expires", toString t)]
         | none => []) ++
        (if info.retention = "download_once" && isFull then
          [("X-Retention-Warning", "File will be deleted after this download")]
         else []) ++
        [("X-Download-Count", toString (info.download_count + 1))]
      if hasRange || decide (available < total) then
        { status := 206
          headers := headers ++
            [("Content-Range",
                "bytes " ++ toString s ++ "-" ++ toString e ++ "/" ++ toString total)] }
      else { status := 200, headers := headers }

/-! ## Helper lemmas -/

theorem alookup_aset_self {α : Type} (l : List (String × α)) (k : String)
    (v : α) : alookup (aset l k v) k = some v := by
  simp [alookup, aset]

theorem alookup_adel_self {α : Type} (l : List (String × α)) (k : String) :
    alookup (adel l k) k = none := by
  induction l with
  | nil => rfl
  | cons p rest ih =>
    by_cases h : p.1 = k
    · simpa [adel, h] using ih
    · simpa [adel, alookup, h] using ih

theorem writeChunk_locks (st : ServerState) (fid : String) (data : List Nat)
    (off : Int) : (writeChunk st fid data off).2.locks = st.locks := by
  unfold writeChunk
  repeat' split
  all_goals simp [List.erase_cons_head]

theorem writeChunk_error_st (st : ServerState) (fid : String)
    (data : List Nat) (off : Int) (e : WriteErr) (st2 : ServerState)
    (h : writeChunk st fid data off = (Except.error e, st2)) : st2 = st := by
  unfold writeChunk at h
  revert h
  repeat' split
  all_goals intro h
  all_goals first
    | (cases h; rfl)
    | (cases h; simp [List.erase_cons_head])
    | exact absurd h (by simp)

theorem finalizeUpload_keeps_offset (now : Int) (st : ServerState)
    (fid : String) (st2 : ServerState) (u : TusUpload)
    (hok : finalizeUpload now st fid = Except.ok st2)
    (hu : alookup st.uploads fid = some u) :
    ∃ w, alookup st2.uploads fid = some w ∧ w.offset = u.offset ∧
      w.size = u.size := by
  unfold finalizeUpload at hok
  rw [hu] at hok
  by_cases hlt : u.offset < u.size
  · simp [hlt] at hok
  · simp only [hlt, if_false] at hok
    cases hok
    exact ⟨_, alookup_aset_self _ _ _, rfl, rfl⟩

/-! ## Demo fixtures shared by witnesses and counterexamples -/

/-- A base64 oracle that never decodes (every value falls back to raw). -/
def demoB64 : String → Option String := fun _ => none

/-- Hash oracles returning fixed tags. -/
def demoHash : HashFns :=
  { sha1 := fun _ => "A", sha256 := fun _ => "B", md5 := fun _ => "C" }

def demoSettings : Settings :=
  { default_retention := "permanent", default_retention_ttl := none,
    token_retention_policies := [] }

def demoCfg : Config :=
  { maxSize := none, maxStorage := none, settings := demoSettings }

def demoEmptyState : ServerState :=
  { uploads := [], fileRecs := [], locks := [], fsUploads := [], fsFiles := [] }

/-! ## C9 — write_chunk never leaks the per-upload lock -/

/-- C9: for every `write_chunk` call that successfully acquires the
per-upload lock (the lock key is free), the lock key has been deleted by
the time the call returns or propagates an exception — on every branch the
resulting lock set equals the original one. -/
theorem write_chunk_releases_lock (st : ServerState) (fid : String)
    (data : List Nat) (off : Int) (h : fid ∉ st.locks) :
    fid ∉ (writeChunk st fid data off).2.locks ∧
    (writeChunk st fid data off).2.locks = st.locks :=
  ⟨(writeChunk_locks st fid data off) ▸ h, writeChunk_locks st fid data off⟩

def demoWriteState : ServerState :=
  { uploads := [], fileRecs := [], locks := [],
    fsUploads := [("w", [1, 2])], fsFiles := [] }

/-- Witness for C9 at a concrete state. -/
theorem write_chunk_releases_lock_witness :
    "w" ∉ demoWriteState.locks ∧
    ("w" ∉ (writeChunk demoWriteState "w" [3] 2).2.locks ∧
      (writeChunk demoWriteState "w" [3] 2).2.locks = demoWriteState.locks) :=
  ⟨by decide, write_chunk_releases_lock demoWriteState "w" [3] 2 (by decide)⟩

/-! ## C2 — Tus-Resumable version check -/

/-- C2 counterexample: an OPTIONS request carrying `Tus-Resumable: 0.9.9`
(differing from 1.0.0) is answered 204, not 412 — `tus_options` never
calls `validate_tus_version`. -/
theorem tus_options_ignores_version_counterexample :
    (tusOptions demoCfg { tusResumable := some "0.9.9" }).status = 204 ∧
    ¬ (tusOptions demoCfg { tusResumable := some "0.9.9" }).status = 412 := by
  decide

/-- C2 amended: OPTIONS never validates `Tus-Resumable`, and an empty
header value is falsy in Python and is ignored.  For POST, HEAD, PATCH and
DELETE a non-empty header differing from 1.0.0 makes
`validate_tus_version` raise `TusError(412)`, but no exception handler
converts a `TusError` into a response, so the server actually answers 500
(the intended 412 is only carried inside the unconverted exception); the
state is untouched. -/
theorem tus_version_mismatch_500 (v : String) (hne : v ≠ "")
    (hnv : v ≠ TUS_VERSION) (cfg : Config) (b64 : String → Option String)
    (hf : HashFns) (now : Int) (freshId freshName fid : String)
    (st : ServerState) (reqC : CreateRequest) (reqP : PatchRequest)
    (reqH reqD : SimpleRequest)
    (hC : reqC.tusResumable = some v) (hP : reqP.tusResumable = some v)
    (hH : reqH.tusResumable = some v) (hD : reqD.tusResumable = some v) :
    tusCreate cfg b64 now freshId freshName st reqC = (errResp 500, st) ∧
    tusPatch hf cfg now st fid reqP = (errResp 500, st) ∧
    tusHead now st fid reqH = (errResp 500, st) ∧
    tusDelete st fid reqD = (errResp 500, st) := by
  have hb : versionBad (some v) = true := by simp [versionBad, hne, hnv]
  refine ⟨?_, ?_, ?_, ?_⟩ <;>
    simp [tusCreate, tusPatch, tusHead, tusDelete, hC, hP, hH, hD, hb]

def demoCreateReqV : CreateRequest :=
  { tusResumable := some "0.9.9", uploadLength := some "1",
    uploadMetadata := none, contentType := none, authToken := none,
    body := [], url := "http://s/tus" }

def demoPatchReqV : PatchRequest :=
  { tusResumable := some "0.9.9", contentType := some CONTENT_TYPE_OFFSET,
    uploadOffset := some "0", uploadChecksum := none, body := [1] }

def demoSimpleReqV : SimpleRequest := { tusResumable := some "0.9.9" }

/-- Witness for C2's amended theorem at a concrete mismatching version. -/
theorem tus_version_mismatch_500_witness :
    tusCreate demoCfg demoB64 0 "f" "x" demoEmptyState demoCreateReqV =
      (errResp 500, demoEmptyState) ∧
    tusPatch demoHash demoCfg 0 demoEmptyState "q" demoPatchReqV =
      (errResp 500, demoEmptyState) ∧
    tusHead 0 demoEmptyState "q" demoSimpleReqV = (errResp 500, demoEmptyState) ∧
    tusDelete demoEmptyState "q" demoSimpleReqV = (errResp 500, demoEmptyState) :=
  tus_version_mismatch_500 "0.9.9" (by decide) (by decide) demoCfg demoB64
    demoHash 0 "f" "x" "q" demoEmptyState demoCreateReqV demoPatchReqV
    demoSimpleReqV demoSimpleReqV rfl rfl rfl rfl

/-! ## C3 — PATCH on a finalized upload -/

def demoFinalUpload : TusUpload :=
  { file_id := "ff", filename := "a.txt", size := 1, offset := 1,
    created_at := 0, updated_at := 0, expires_at := some 1000, is_final := true,
    storage_path := "files/ff_a.txt", checksum := none, mime_type := none,
    retention := "permanent", retention_ttl := none, retention_expires_at := none,
    download_count := 0, owner_id := none }

def demoFinalState : ServerState :=
  { uploads := [("ff", demoFinalUpload)], fileRecs := [], locks := [],
    fsUploads := [], fsFiles := [("ff_a.txt", [9])] }

def demoPatchOnFinal : PatchRequest :=
  { tusResumable := none, contentType := some CONTENT_TYPE_OFFSET,
    uploadOffset := some "1", uploadChecksum := none, body := [1] }

/-- C3 counterexample: a well-formed PATCH to a finalized upload
(`is_final = true`, `offset = size = 1`, matching `Upload-Offset`) returns
400, not the claimed 404 — `finalize_upload` keeps the upload record in
the store, so the lookup succeeds and the size check fires. -/
theorem tus_patch_on_final_counterexample :
    (tusPatch demoHash demoCfg 10 demoFinalState "ff" demoPatchOnFinal).1.status
        = 400 ∧
    ¬ (tusPatch demoHash demoCfg 10 demoFinalState "ff"
        demoPatchOnFinal).1.status = 404 := by
  decide

/-- C3 amended: a PATCH to a finalized, non-expired upload never returns
404 (the upload record remains readable after finalization) and never
succeeds — the state is unchanged and the status is an error (with
well-formed headers and free quota it is 400: a non-empty chunk at
`offset = size` exceeds the upload size). -/
theorem tus_patch_on_final_is_refused (hf : HashFns) (cfg : Config)
    (now : Int) (st : ServerState) (fid : String) (req : PatchRequest)
    (u : TusUpload) (hu : alookup st.uploads fid = some u)
    (hfin : u.is_final = true) (hoff : u.size ≤ u.offset)
    (hnx : expired u.expires_at now = false) :
    (tusPatch hf cfg now st fid req).1.status ≠ 404 ∧
    (tusPatch hf cfg now st fid req).1.status ≠ 204 ∧
    (tusPatch hf cfg now st fid req).2 = st := by
  suffices hs : (tusPatch hf cfg now st fid req).2 = st ∧
      (tusPatch hf cfg now st fid req).1.status ≠ 404 ∧
      (tusPatch hf cfg now st fid req).1.status ≠ 204 by
    exact ⟨hs.2.1, hs.2.2, hs.1⟩
  by_cases h1 : versionBad req.tusResumable
  · simp [tusPatch, h1, errResp]
  · by_cases h2 : req.contentType = some CONTENT_TYPE_OFFSET
    · cases h3 : truthy req.uploadOffset
      · simp [tusPatch, h1, h2, hu, hnx, h3, errResp]
      · cases hp : pyParseInt (req.uploadOffset.getD "") with
        | none => simp [tusPatch, h1, h2, hu, hnx, h3, hp, errResp]
        | some o =>
          by_cases h4 : o = u.offset
          · by_cases h5 : req.body = []
            · simp [tusPatch, h1, h2, hu, hnx, h3, hp, h4, h5, errResp]
            · cases hq : (checkQuota cfg.maxStorage st req.body.length).1
              · simp [tusPatch, h1, h2, hu, hnx, h3, hp, h4, h5, hq, errResp]
              · have hlen : 1 ≤ req.body.length :=
                  List.length_pos.mpr h5
                have hgt : u.size < u.offset + (req.body.length : Int) := by
                  omega
                simp [tusPatch, h1, h2, hu, hnx, h3, hp, h4, h5, hq, hgt,
                  errResp]
          · simp [tusPatch, h1, h2, hu, hnx, h3, hp, h4, errResp]
    · simp [tusPatch, h1, h2, errResp]

/-- Witness for C3's amended theorem at the concrete finalized record. -/
theorem tus_patch_on_final_is_refused_witness :
    (tusPatch demoHash demoCfg 10 demoFinalState "ff"
        demoPatchOnFinal).1.status ≠ 404 ∧
    (tusPatch demoHash demoCfg 10 demoFinalState "ff"
        demoPatchOnFinal).1.status ≠ 204 ∧
    (tusPatch demoHash demoCfg 10 demoFinalState "ff" demoPatchOnFinal).2 =
      demoFinalState :=
  tus_patch_on_final_is_refused demoHash demoCfg 10 demoFinalState "ff"
    demoPatchOnFinal demoFinalUpload (by decide) (by decide) (by decide)
    (by decide)

/-! ## C7 — Upload-Checksum verification -/

/-- C7: in PATCH, with an `Upload-Checksum: <algo> <digest>` header and all
earlier checks passing, an algorithm whose lower-cased tag is not sha1,
sha256 or md5 yields 400, and a recognized algorithm whose computed digest
differs from the expected one yields 460; in both cases the state — the
upload record and the on-disk bytes — is unchanged.  (`computeDigest`
lowers the tag before comparing, so the match is case-insensitive.) -/
theorem tus_patch_checksum (hf : HashFns) (cfg : Config) (now : Int)
    (st : ServerState) (fid : String) (u : TusUpload)
    (hu : alookup st.uploads fid = some u)
    (hnx : expired u.expires_at now = false)
    (reqA : PatchRequest) (offStrA sA algoA expA : String)
    (h1A : versionBad reqA.tusResumable = false)
    (h2A : reqA.contentType = some CONTENT_TYPE_OFFSET)
    (hoffA : reqA.uploadOffset = some offStrA)
    (hpoA : pyParseInt offStrA = some u.offset)
    (hbodyA : reqA.body ≠ [])
    (hqA : (checkQuota cfg.maxStorage st reqA.body.length).1 = true)
    (hszA : u.offset + (reqA.body.length : Int) ≤ u.size)
    (hcsA : reqA.uploadChecksum = some sA)
    (hspA : pySplit1 sA ' ' = some (algoA, expA))
    (hdigA : computeDigest hf algoA reqA.body = none)
    (reqB : PatchRequest) (offStrB sB algoB expB actualB : String)
    (h1B : versionBad reqB.tusResumable = false)
    (h2B : reqB.contentType = some CONTENT_TYPE_OFFSET)
    (hoffB : reqB.uploadOffset = some offStrB)
    (hpoB : pyParseInt offStrB = some u.offset)
    (hbodyB : reqB.body ≠ [])
    (hqB : (checkQuota cfg.maxStorage st reqB.body.length).1 = true)
    (hszB : u.offset + (reqB.body.length : Int) ≤ u.size)
    (hcsB : reqB.uploadChecksum = some sB)
    (hspB : pySplit1 sB ' ' = some (algoB, expB))
    (hdigB : computeDigest hf algoB reqB.body = some actualB)
    (hmis : actualB ≠ expB) :
    tusPatch hf cfg now st fid reqA = (errResp 400, st) ∧
    tusPatch hf cfg now st fid reqB = (errResp 460, st) := by
  have h0 : pyParseInt "" = none := by decide
  constructor
  · have hne : offStrA ≠ "" := by
      intro h; rw [h, h0] at hpoA; cases hpoA
    have htr : truthy (some offStrA) = true := by simp [truthy, hne]
    have hlt : ¬ (u.size < u.offset + (reqA.body.length : Int)) :=
      not_lt.mpr hszA
    simp [tusPatch, h1A, h2A, hu, hnx, htr, hoffA, hpoA, hbodyA, hqA, hlt,
      hcsA, hspA, hdigA, errResp]
  · have hne : offStrB ≠ "" := by
      intro h; rw [h, h0] at hpoB; cases hpoB
    have htr : truthy (some offStrB) = true := by simp [truthy, hne]
    have hlt : ¬ (u.size < u.offset + (reqB.body.length : Int)) :=
      not_lt.mpr hszB
    simp [tusPatch, h1B, h2B, hu, hnx, htr, hoffB, hpoB, hbodyB, hqB, hlt,
      hcsB, hspB, hdigB, hmis, errResp]

def demoPartialUpload : TusUpload :=
  { file_id := "p", filename := "b.bin", size := 10, offset := 0,
    created_at := 0, updated_at := 0, expires_at := some 1000,
    is_final := false, storage_path := "uploads/p", checksum := none,
    mime_type := none, retention := "permanent", retention_ttl := none,
    retention_expires_at := none, download_count := 0, owner_id := none }

def demoPartialState : ServerState :=
  { uploads := [("p", demoPartialUpload)], fileRecs := [], locks := [],
    fsUploads := [("p", [])], fsFiles := [] }

def demoPatchBadAlgo : PatchRequest :=
  { tusResumable := none, contentType := some CONTENT_TYPE_OFFSET,
    uploadOffset := some "0", uploadChecksum := some "CRC32 zz",
    body := [1, 2] }

def demoPatchBadDigest : PatchRequest :=
  { tusResumable := none, contentType := some CONTENT_TYPE_OFFSET,
    uploadOffset := some "0", uploadChecksum := some "SHA256 zz",
    body := [1, 2] }

/-- Witness for C7 at concrete unknown-algorithm and mismatching-digest
requests (the demo sha256 oracle returns "B", so "zz" mismatches). -/
theorem tus_patch_checksum_witness :
    tusPatch demoHash demoCfg 10 demoPartialState "p" demoPatchBadAlgo =
      (errResp 400, demoPartialState) ∧
    tusPatch demoHash demoCfg 10 demoPartialState "p" demoPatchBadDigest =
      (errResp 460, demoPartialState) :=
  tus_patch_checksum demoHash demoCfg 10 demoPartialState "p"
    demoPartialUpload (by decide) (by decide)
    demoPatchBadAlgo "0" "CRC32 zz" "CRC32" "zz" (by decide) rfl rfl
    (by decide) (by decide) (by decide) (by decide) rfl (by decide)
    (by decide)
    demoPatchBadDigest "0" "SHA256 zz" "SHA256" "zz" "B" (by decide) rfl rfl
    (by decide) (by decide) (by decide) (by decide) rfl (by decide)
    (by decide) (by decide)

/-! ## C4 — quota refusal is a safe 507 -/

theorem writeChunk_ok_of (st : ServerState) (fid : String) (data : List Nat)
    (off : Int) (hlock : fid ∉ st.locks) (content : List Nat)
    (hfs : alookup st.fsUploads fid = some content) (hoff : 0 ≤ off) :
    ∃ st2, writeChunk st fid data off = (Except.ok data.length, st2) := by
  unfold writeChunk
  rw [if_neg hlock]
  simp only [hfs]
  by_cases hc : content.length > 0
  · rw [if_pos hc, if_neg (not_lt.mpr hoff)]; exact ⟨_, rfl⟩
  · rw [if_neg hc]; exact ⟨_, rfl⟩

/-- C4: when quota admission refuses a PATCH (all earlier checks passing),
the response is 507 with `Retry-After: 10`, the unchanged `Upload-Offset`,
and the `X-Storage-*` headers, and the state — record and bytes — is
untouched; the identical PATCH against a state with the same record where
quota admits (and which satisfies the remaining checks: size bound, no
checksum header, free lock, existing upload file) succeeds with 204. -/
theorem tus_patch_quota_507_and_retry (hf : HashFns) (cfg : Config)
    (now : Int) (st : ServerState) (fid : String) (u : TusUpload)
    (req : PatchRequest) (offStr : String)
    (h1 : versionBad req.tusResumable = false)
    (h2 : req.contentType = some CONTENT_TYPE_OFFSET)
    (hu : alookup st.uploads fid = some u)
    (hnx : expired u.expires_at now = false)
    (hoff : req.uploadOffset = some offStr)
    (hpo : pyParseInt offStr = some u.offset)
    (hbody : req.body ≠ [])
    (hq : (checkQuota cfg.maxStorage st req.body.length).1 = false)
    (st2 : ServerState) (content : List Nat)
    (hu2 : alookup st2.uploads fid = some u)
    (hq2 : (checkQuota cfg.maxStorage st2 req.body.length).1 = true)
    (hsz : u.offset + (req.body.length : Int) ≤ u.size)
    (hcs : req.uploadChecksum = none)
    (hnf : u.is_final = false)
    (hlock : fid ∉ st2.locks)
    (hfs : alookup st2.fsUploads fid = some content)
    (hop : 0 ≤ u.offset) :
    tusPatch hf cfg now st fid req =
      ({ status := 507,
         headers := tusResponseHeaders ++
           [("Upload-Offset", toString u.offset),
            ("Retry-After", "10"),
            ("X-Storage-Used",
              toString (checkQuota cfg.maxStorage st req.body.length).2.used),
            ("X-Storage-Max",
              match (checkQuota cfg.maxStorage st req.body.length).2.maxSize with
              | some m => toString m
              | none => "None"),
            ("X-Storage-Available",
              toString
                ((checkQuota cfg.maxStorage st
                    req.body.length).2.available.getD 0))] },
       st) ∧
    (tusPatch hf cfg now st2 fid req).1.status = 204 := by
  have h0 : pyParseInt "" = none := by decide
  have hne : offStr ≠ "" := by
    intro h; rw [h, h0] at hpo; cases hpo
  have htr : truthy (some offStr) = true := by simp [truthy, hne]
  constructor
  · simp [tusPatch, h1, h2, hu, hnx, hoff, htr, hpo, hbody, hq]
  · have hlt : ¬ (u.size < u.offset + (req.body.length : Int)) :=
      not_lt.mpr hsz
    obtain ⟨st3, hw⟩ :=
      writeChunk_ok_of st2 fid req.body u.offset hlock content hfs hop
    by_cases hfin2 : u.size ≤ u.offset + (req.body.length : Int)
    · have hnl : ¬ (u.offset + (req.body.length : Int) < u.size) :=
        not_lt.mpr hfin2
      simp [tusPatch, patchFinish, h1, h2, hu2, hnx, hoff, htr, hpo, hbody,
        hq2, hlt, hcs, hw, hnf, hfin2, finalizeUpload, alookup_aset_self, hnl]
    · simp [tusPatch, patchFinish, h1, h2, hu2, hnx, hoff, htr, hpo, hbody,
        hq2, hlt, hcs, hw, hnf, hfin2]

def demoQuotaCfg : Config :=
  { maxSize := none, maxStorage := some 4, settings := demoSettings }

def demoQuotaFullState : ServerState :=
  { uploads := [("p", demoPartialUpload)], fileRecs := [], locks := [],
    fsUploads := [("p", [])], fsFiles := [("x", [1, 2, 3, 4])] }

def demoQuotaFreeState : ServerState :=
  { uploads := [("p", demoPartialUpload)], fileRecs := [], locks := [],
    fsUploads := [("p", [])], fsFiles := [] }

def demoQuotaPatch : PatchRequest :=
  { tusResumable := none, contentType := some CONTENT_TYPE_OFFSET,
    uploadOffset := some "0", uploadChecksum := none, body := [1, 2] }

/-- Witness for C4: with `max_storage_size = 4` and 4 bytes on disk a
2-byte PATCH is refused with 507 and the concrete storage headers; after
the blocking file is removed the identical PATCH returns 204. -/
theorem tus_patch_quota_507_and_retry_witness :
    tusPatch demoHash demoQuotaCfg 10 demoQuotaFullState "p" demoQuotaPatch =
      ({ status := 507,
         headers := tusResponseHeaders ++
           [("Upload-Offset", toString demoPartialUpload.offset),
            ("Retry-After", "10"),
            ("X-Storage-Used",
              toString (checkQuota demoQuotaCfg.maxStorage demoQuotaFullState
                demoQuotaPatch.body.length).2.used),
            ("X-Storage-Max",
              match (checkQuota demoQuotaCfg.maxStorage demoQuotaFullState
                  demoQuotaPatch.body.length).2.maxSize with
              | some m => toString m
              | none => "None"),
            ("X-Storage-Available",
              toString ((checkQuota demoQuotaCfg.maxStorage demoQuotaFullState
                  demoQuotaPatch.body.length).2.available.getD 0))] },
       demoQuotaFullState) ∧
    (tusPatch demoHash demoQuotaCfg 10 demoQuotaFreeState "p"
        demoQuotaPatch).1.status = 204 :=
  tus_patch_quota_507_and_retry demoHash demoQuotaCfg 10 demoQuotaFullState
    "p" demoPartialUpload demoQuotaPatch "0" (by decide) rfl (by decide)
    (by decide) rfl (by decide) (by decide) (by decide) demoQuotaFreeState []
    (by decide) (by decide) (by decide) rfl (by decide) (by decide)
    (by decide) (by decide)

/-! ## C1 — offset discipline -/

theorem patchFinish_record (now : Int) (st2 : ServerState) (fid : String)
    (u : TusUpload) (newOffset : Int) :
    ∃ u2, alookup (patchFinish now st2 fid u newOffset).2.uploads fid = some u2 ∧
      u2.offset = newOffset ∧ u2.size = u.size := by
  unfold patchFinish
  dsimp only
  repeat' split
  all_goals
    first
    | exact ⟨_, alookup_aset_self _ _ _, rfl, rfl⟩
    | (obtain ⟨w, hw, ho, hs⟩ :=
         finalizeUpload_keeps_offset now _ fid _ _ (by assumption)
           (alookup_aset_self st2.uploads fid _)
       exact ⟨w, hw, ho, hs⟩)

def demoReqCwu : CreateRequest :=
  { tusResumable := none, uploadLength := some "1",
    uploadMetadata := some "filename Zm9v",
    contentType := some CONTENT_TYPE_OFFSET, authToken := none,
    body := [7, 8], url := "http://s/tus" }

/-- C1 counterexample: a creation-with-upload POST declaring
`Upload-Length: 1` with a 2-byte body is accepted and leaves a record with
`offset = 2 > size = 1` — the initial chunk is written without checking
the body length against the declared size, so "`offset` never exceeds
`size`" fails exactly on the operation the claim singles out. -/
theorem create_with_upload_exceeds_size_counterexample :
    ((alookup (tusCreate demoCfg demoB64 100 "g" "x" demoEmptyState
        demoReqCwu).2.uploads "g").map (fun u => (u.offset, u.size))) =
      some (2, 1) ∧
    ¬ ((2 : Int) ≤ (1 : Int)) ∧
    (tusCreate demoCfg demoB64 100 "g" "x" demoEmptyState
        demoReqCwu).1.status = 201 := by
  decide

/-- C1 amended: for every PATCH on a recorded upload, either the record's
`offset` grows by exactly the request body length and stays at most `size`
(the declared size is never changed), or the state — record and filesystem
— is fully unchanged, or the upload had expired and the PATCH removed the
record and its bytes (410).  The analogous bound does NOT hold for the
initial chunk of a creation-with-upload POST, which is written without any
check against `size` (see the counterexample). -/
theorem tus_patch_offset_discipline (hf : HashFns) (cfg : Config)
    (now : Int) (st : ServerState) (fid : String) (req : PatchRequest)
    (u : TusUpload) (hu : alookup st.uploads fid = some u) :
    (∃ u2, alookup (tusPatch hf cfg now st fid req).2.uploads fid = some u2 ∧
        u2.offset = u.offset + (req.body.length : Int) ∧
        u2.size = u.size ∧ u2.offset ≤ u.size) ∨
    (tusPatch hf cfg now st fid req).2 = st ∨
    ((tusPatch hf cfg now st fid req).1.status = 410 ∧
      alookup (tusPatch hf cfg now st fid req).2.uploads fid = none) := by
  by_cases h1 : versionBad req.tusResumable
  · right; left; simp [tusPatch, h1]
  · by_cases h2 : req.contentType = some CONTENT_TYPE_OFFSET
    · cases hx : expired u.expires_at now
      · cases h3 : truthy req.uploadOffset
        · right; left; simp [tusPatch, h1, h2, hu, hx, h3]
        · cases hp : pyParseInt (req.uploadOffset.getD "") with
          | none => right; left; simp [tusPatch, h1, h2, hu, hx, h3, hp]
          | some o =>
            by_cases h4 : o = u.offset
            · by_cases h5 : req.body = []
              · right; left; simp [tusPatch, h1, h2, hu, hx, h3, hp, h4, h5]
              · cases hq : (checkQuota cfg.maxStorage st req.body.length).1
                · right; left
                  simp [tusPatch, h1, h2, hu, hx, h3, hp, h4, h5, hq]
                · by_cases h6 : u.size < u.offset + (req.body.length : Int)
                  · right; left
                    simp [tusPatch, h1, h2, hu, hx, h3, hp, h4, h5, hq, h6]
                  · have hgate :
                        ∀ gate : Option HttpResponse, gate = none →
                        True := fun _ _ => trivial
                    cases hcs : req.uploadChecksum with
                    | some s =>
                      cases hsp : pySplit1 s ' ' with
                      | none =>
                          right; left
                          simp [tusPatch, h1, h2, hu, hx, h3, hp, h4, h5, hq,
                            h6, hcs, hsp]
                      | some pair =>
                        cases hdg : computeDigest hf pair.1 req.body with
                        | none =>
                            right; left
                            simp [tusPatch, h1, h2, hu, hx, h3, hp, h4, h5,
                              hq, h6, hcs, hsp, hdg]
                        | some actual =>
                          by_cases h7 : actual = pair.2
                          · -- checksum passes: chunk write path
                            cases hw : writeChunk st fid req.body u.offset with
                            | mk res st2 =>
                              cases res with
                              | error e =>
                                  right; left
                                  have := writeChunk_error_st st fid req.body
                                    u.offset e st2 hw
                                  simp [tusPatch, h1, h2, hu, hx, h3, hp, h4,
                                    h5, hq, h6, hcs, hsp, hdg, h7, hw, this]
                              | ok n =>
                                  left
                                  obtain ⟨u2, hu2, ho2, hs2⟩ :=
                                    patchFinish_record now st2 fid u
                                      (u.offset + (req.body.length : Int))
                                  refine ⟨u2, ?_, ?_⟩
                                  · simp [tusPatch, h1, h2, hu, hx, h3, hp,
                                      h4, h5, hq, h6, hcs, hsp, hdg, h7, hw]
                                    exact hu2
                                  · exact ⟨ho2, hs2, by omega⟩
                          · right; left
                            simp [tusPatch, h1, h2, hu, hx, h3, hp, h4, h5,
                              hq, h6, hcs, hsp, hdg, h7]
                    | none =>
                      cases hw : writeChunk st fid req.body u.offset with
                      | mk res st2 =>
                        cases res with
                        | error e =>
                            right; left
                            have := writeChunk_error_st st fid req.body
                              u.offset e st2 hw
                            simp [tusPatch, h1, h2, hu, hx, h3, hp, h4, h5,
                              hq, h6, hcs, hw, this]
                        | ok n =>
                            left
                            obtain ⟨u2, hu2, ho2, hs2⟩ :=
                              patchFinish_record now st2 fid u
                                (u.offset + (req.body.length : Int))
                            refine ⟨u2, ?_, ?_⟩
                            · simp [tusPatch, h1, h2, hu, hx, h3, hp, h4, h5,
                                hq, h6, hcs, hw]
                              exact hu2
                            · exact ⟨ho2, hs2, by omega⟩
            · right; left; simp [tusPatch, h1, h2, hu, hx, h3, hp, h4]
      · right; right
        constructor
        · simp [tusPatch, h1, h2, hu, hx, errResp]
        · simp [tusPatch, h1, h2, hu, hx, deleteUpload, alookup_adel_self]
    · right; left; simp [tusPatch, h1, h2]

/-- Witness for C1's amended theorem: a valid 2-byte PATCH at offset 0 on
the 10-byte demo upload grows the offset to 2. -/
theorem tus_patch_offset_discipline_witness :
    (∃ u2, alookup (tusPatch demoHash demoCfg 10 demoPartialState "p"
          demoQuotaPatch).2.uploads "p" = some u2 ∧
        u2.offset = demoPartialUpload.offset +
          (demoQuotaPatch.body.length : Int) ∧
        u2.size = demoPartialUpload.size ∧ u2.offset ≤ demoPartialUpload.size) ∨
    (tusPatch demoHash demoCfg 10 demoPartialState "p" demoQuotaPatch).2 =
      demoPartialState ∨
    ((tusPatch demoHash demoCfg 10 demoPartialState "p"
        demoQuotaPatch).1.status = 410 ∧
      alookup (tusPatch demoHash demoCfg 10 demoPartialState "p"
        demoQuotaPatch).2.uploads "p" = none) :=
  tus_patch_offset_discipline demoHash demoCfg 10 demoPartialState "p"
    demoQuotaPatch demoPartialUpload (by decide)

/-! ## C5 — filename requirement on POST -/

def demoReqNoMeta : CreateRequest :=
  { tusResumable := none, uploadLength := some "3", uploadMetadata := none,
    contentType := none, authToken := none, body := [], url := "http://s/tus" }

/-- C5 counterexample: a POST carrying no `Upload-Metadata` header at all
(and a valid `Upload-Length`) is answered 201, not the claimed 400 — the
handler generates a default filename instead of rejecting. -/
theorem tus_create_no_metadata_counterexample :
    (tusCreate demoCfg demoB64 100 "f" "x" demoEmptyState
        demoReqNoMeta).1.status = 201 ∧
    ¬ (tusCreate demoCfg demoB64 100 "f" "x" demoEmptyState
        demoReqNoMeta).1.status = 400 := by
  decide

/-- C5 amended: when `Upload-Metadata` is present (non-empty) but its
parsed pairs contain no `filename` key, POST returns 400 with the state
unchanged; when the header is absent the handler instead generates the
filename `upload_<random hex>` and creates the upload (201). -/
theorem tus_create_filename_requirement (cfg : Config)
    (b64 : String → Option String) (now : Int) (freshId freshName : String)
    (st : ServerState)
    (reqA : CreateRequest) (lenA mhA : String) (nA : Int)
    (h1A : versionBad reqA.tusResumable = false)
    (hlA : reqA.uploadLength = some lenA)
    (hpA : pyParseInt lenA = some nA)
    (htlA : tooLargeCheck cfg.maxSize nA = false)
    (hmA : reqA.uploadMetadata = some mhA) (hmneA : mhA ≠ "")
    (hfnA : alookup (parseMetaPairs b64 mhA) "filename" = none)
    (reqB : CreateRequest) (lenB : String) (nB : Int)
    (h1B : versionBad reqB.tusResumable = false)
    (hlB : reqB.uploadLength = some lenB)
    (hpB : pyParseInt lenB = some nB)
    (htlB : tooLargeCheck cfg.maxSize nB = false)
    (hmB : reqB.uploadMetadata = none)
    (hbodyB : reqB.body = []) :
    tusCreate cfg b64 now freshId freshName st reqA = (errResp 400, st) ∧
    (tusCreate cfg b64 now freshId freshName st reqB).1.status = 201 ∧
    ((alookup (tusCreate cfg b64 now freshId freshName st
        reqB).2.uploads freshId).map (fun u => u.filename)) =
      some ("upload_" ++ freshName) := by
  have h0 : pyParseInt "" = none := by decide
  have hneA : lenA ≠ "" := by intro h; rw [h, h0] at hpA; cases hpA
  have hneB : lenB ≠ "" := by intro h; rw [h, h0] at hpB; cases hpB
  have htrA : truthy (some lenA) = true := by simp [truthy, hneA]
  have htrB : truthy (some lenB) = true := by simp [truthy, hneB]
  refine ⟨?_, ?_, ?_⟩
  · simp [tusCreate, h1A, hlA, htrA, hpA, htlA, hmA, hmneA, metaFromHeader,
      hfnA]
  · simp [tusCreate, h1B, hlB, htrB, hpB, htlB, hmB, hbodyB]
  · simp [tusCreate, h1B, hlB, htrB, hpB, htlB, hmB, hbodyB,
      alookup_aset_self]

def demoReqNoFilename : CreateRequest :=
  { tusResumable := none, uploadLength := some "3",
    uploadMetadata := some "filetype dGV4dA", contentType := none,
    authToken := none, body := [], url := "http://s/tus" }

/-- Witness for C5's amended theorem: metadata carrying only `filetype`
yields 400; no metadata yields 201 with the generated name `upload_x`. -/
theorem tus_create_filename_requirement_witness :
    tusCreate demoCfg demoB64 100 "f" "x" demoEmptyState demoReqNoFilename =
      (errResp 400, demoEmptyState) ∧
    (tusCreate demoCfg demoB64 100 "f" "x" demoEmptyState
        demoReqNoMeta).1.status = 201 ∧
    ((alookup (tusCreate demoCfg demoB64 100 "f" "x" demoEmptyState
        demoReqNoMeta).2.uploads "f").map (fun u => u.filename)) =
      some ("upload_" ++ "x") :=
  tus_create_filename_requirement demoCfg demoB64 100 "f" "x" demoEmptyState
    demoReqNoFilename "3" "filetype dGV4dA" 3 (by decide) rfl (by decide)
    (by decide) rfl (by decide) (by decide)
    demoReqNoMeta "3" 3 (by decide) rfl (by decide) (by decide) rfl rfl

/-! ## C6 — Upload-Length validation on POST -/

def demoReqNegLen : CreateRequest :=
  { tusResumable := none, uploadLength := some "-5", uploadMetadata := none,
    contentType := none, authToken := none, body := [], url := "http://s/tus" }

/-- C6 counterexample: `Upload-Length: -5` parses as the integer −5 and is
accepted — the POST returns 201 and creates a record with `size = -5`,
instead of the claimed 400 for a negative value. -/
theorem tus_create_negative_length_counterexample :
    (tusCreate demoCfg demoB64 100 "f" "x" demoEmptyState
        demoReqNegLen).1.status = 201 ∧
    ((alookup (tusCreate demoCfg demoB64 100 "f" "x" demoEmptyState
        demoReqNegLen).2.uploads "f").map (fun u => u.size)) = some (-5) ∧
    ¬ (tusCreate demoCfg demoB64 100 "f" "x" demoEmptyState
        demoReqNegLen).1.status = 400 := by
  decide

/-- C6 amended: a missing, empty or non-integer `Upload-Length` yields 400
with the state unchanged, but there is no `≥ 0` check: a negative integer
value is accepted and creates an upload record whose `size` is that
negative number. -/
theorem tus_create_upload_length_validation (cfg : Config)
    (b64 : String → Option String) (now : Int) (freshId freshName : String)
    (st : ServerState)
    (reqA : CreateRequest)
    (h1A : versionBad reqA.tusResumable = false)
    (hbadA : reqA.uploadLength = none ∨ reqA.uploadLength = some "" ∨
      ∃ sA, reqA.uploadLength = some sA ∧ pyParseInt sA = none)
    (reqB : CreateRequest) (lenB : String) (nB : Int)
    (h1B : versionBad reqB.tusResumable = false)
    (hlB : reqB.uploadLength = some lenB)
    (hpB : pyParseInt lenB = some nB)
    (hnegB : nB < 0)
    (htlB : tooLargeCheck cfg.maxSize nB = false)
    (hmB : reqB.uploadMetadata = none)
    (hbodyB : reqB.body = []) :
    tusCreate cfg b64 now freshId freshName st reqA = (errResp 400, st) ∧
    (tusCreate cfg b64 now freshId freshName st reqB).1.status = 201 ∧
    ((alookup (tusCreate cfg b64 now freshId freshName st
        reqB).2.uploads freshId).map (fun u => u.size)) = some nB := by
  have h0 : pyParseInt "" = none := by decide
  have hneB : lenB ≠ "" := by intro h; rw [h, h0] at hpB; cases hpB
  have htrB : truthy (some lenB) = true := by simp [truthy, hneB]
  refine ⟨?_, ?_, ?_⟩
  · rcases hbadA with h | h | ⟨sA, hl, hp⟩
    · simp [tusCreate, h1A, h, truthy]
    · simp [tusCreate, h1A, h, truthy]
    · by_cases hsA : sA = ""
      · simp [tusCreate, h1A, hl, hsA, truthy]
      · have htrA : truthy (some sA) = true := by simp [truthy, hsA]
        simp [tusCreate, h1A, hl, htrA, hp]
  · simp [tusCreate, h1B, hlB, htrB, hpB, htlB, hmB, hbodyB]
  · simp [tusCreate, h1B, hlB, htrB, hpB, htlB, hmB, hbodyB,
      alookup_aset_self]

/-- Witness for C6's amended theorem: a non-integer `Upload-Length` is
refused with 400, and the concrete value `-5` is accepted with 201 and a
record of size −5. -/
theorem tus_create_upload_length_validation_witness :
    tusCreate demoCfg demoB64 100 "f" "x" demoEmptyState
        { demoReqNoMeta with uploadLength := some "abc" } =
      (errResp 400, demoEmptyState) ∧
    (tusCreate demoCfg demoB64 100 "f" "x" demoEmptyState
        demoReqNegLen).1.status = 201 ∧
    ((alookup (tusCreate demoCfg demoB64 100 "f" "x" demoEmptyState
        demoReqNegLen).2.uploads "f").map (fun u => u.size)) = some (-5) :=
  tus_create_upload_length_validation demoCfg demoB64 100 "f" "x"
    demoEmptyState { demoReqNoMeta with uploadLength := some "abc" }
    (by decide) (Or.inr (Or.inr ⟨"abc", rfl, by decide⟩))
    demoReqNegLen "-5" (-5) (by decide) rfl (by decide) (by decide)
    (by decide) rfl rfl

/-! ## C10 — metadata parsing is total over malformed base64 -/

/-- C10: for every base64 oracle and every single-item
`Upload-Metadata` header `"key value"` whose value fails to decode
(`b64 = none`), the parser keeps the raw (stripped) string as the value
instead of rejecting; when the key is `filename`, a POST carrying exactly
that header is not refused for that reason — it returns 201 and the
created record's filename is the raw string. -/
theorem metadata_bad_b64_fallback (b64 : String → Option String)
    (header k v : String)
    (hsp : pySplit header ',' = [header])
    (htr : pyStrip header = header) (hne : header ≠ "")
    (hso : pySplit1 header ' ' = some (k, v))
    (hb : b64 (pyStrip v) = none)
    (hkey : pyStrip k = "filename")
    (cfg : Config) (now : Int) (freshId freshName : String)
    (st : ServerState) (req : CreateRequest) (lenS : String) (n : Int)
    (h1 : versionBad req.tusResumable = false)
    (hl : req.uploadLength = some lenS)
    (hp : pyParseInt lenS = some n)
    (htl : tooLargeCheck cfg.maxSize n = false)
    (hm : req.uploadMetadata = some header)
    (hbody : req.body = []) :
    parseMetaPairs b64 header = [("filename", pyStrip v)] ∧
    (tusCreate cfg b64 now freshId freshName st req).1.status = 201 ∧
    ((alookup (tusCreate cfg b64 now freshId freshName st
        req).2.uploads freshId).map (fun u => u.filename)) =
      some (pyStrip v) := by
  have h0 : pyParseInt "" = none := by decide
  have hneL : lenS ≠ "" := by intro h; rw [h, h0] at hp; cases hp
  have htrL : truthy (some lenS) = true := by simp [truthy, hneL]
  have hpairs : parseMetaPairs b64 header = [("filename", pyStrip v)] := by
    simp [parseMetaPairs, hsp, htr, hne, hso, hb, hkey, aset]
  have hxt : ¬ ("filename" : String) = "retention_ttl" := by decide
  have hmeta : metaFromHeader b64 header =
      Except.ok
        { filename := pyStrip v, filetype := alookup [("filename", pyStrip v)] "filetype"
          checksum := alookup [("filename", pyStrip v)] "checksum"
          retention := alookup [("filename", pyStrip v)] "retention"
          retention_ttl := none } := by
    simp [metaFromHeader, hne, hpairs, alookup, hxt]
  refine ⟨hpairs, ?_, ?_⟩
  · simp [tusCreate, h1, hl, htrL, hp, htl, hm, hne, hmeta, hbody]
  · simp [tusCreate, h1, hl, htrL, hp, htl, hm, hne, hmeta, hbody,
      alookup_aset_self]

/-- Witness for C10 with the oracle that always fails and the concrete
header `filename notbase64!!`. -/
theorem metadata_bad_b64_fallback_witness :
    parseMetaPairs demoB64 "filename notbase64!!" =
      [("filename", pyStrip "notbase64!!")] ∧
    (tusCreate demoCfg demoB64 100 "f" "x" demoEmptyState
        { demoReqNoMeta with
            uploadMetadata := some "filename notbase64!!" }).1.status = 201 ∧
    ((alookup (tusCreate demoCfg demoB64 100 "f" "x" demoEmptyState
        { demoReqNoMeta with
            uploadMetadata := some "filename notbase64!!" }).2.uploads
        "f").map (fun u => u.filename)) = some (pyStrip "notbase64!!") :=
  metadata_bad_b64_fallback demoB64 "filename notbase64!!" "filename"
    "notbase64!!" (by decide) (by decide) (by decide) (by decide) rfl
    (by decide) demoCfg 100 "f" "x" demoEmptyState
    { demoReqNoMeta with uploadMetadata := some "filename notbase64!!" }
    "3" 3 (by decide) rfl (by decide) (by decide) rfl rfl

/-! ## C8 — Range download status codes -/

def demoFileRec : FileRec :=
  { file_id := "ff", filename := "a.txt", size := 1, available_size := 1,
    mime_type := none, checksum := none, is_complete := true, created_at := 0,
    completed_at := 5, storage_path := "files/ff_a.txt",
    retention := "permanent", retention_ttl := none,
    retention_expires_at := none, download_count := 0, owner_id := none }

def demoDlState : ServerState :=
  { uploads := [], fileRecs := [("ff", demoFileRec)], locks := [],
    fsUploads := [], fsFiles := [("ff_a.txt", [9])] }

/-- C8 counterexample: on a complete 1-byte file, the full-content request
`Range: bytes=0-0` is answered 206, not the claimed 200 — the handler
returns 206 whenever a Range header was supplied. -/
theorem download_full_range_complete_counterexample :
    (downloadFile demoDlState "ff" (some "bytes=0-0")).status = 206 ∧
    ¬ (downloadFile demoDlState "ff" (some "bytes=0-0")).status = 200 := by
  decide

/-- C8 amended: a download request whose Range header parses to the full
available content returns 206 on a partial file AND 206 (not 200) on a
complete file — the handler answers 206 whenever a Range header was
supplied; 200 is returned only for a complete file requested without a
Range header. -/
theorem download_range_is_206 (st : ServerState) (fid : String)
    (f : FileRec) (rh : String)
    (hf : alookup st.fileRecs fid = some f)
    (hcomp : f.available_size = f.size)
    (hrne : rh ≠ "")
    (hpr : parseRangeSpec f.available_size (pyReplace rh "bytes=" "") =
      some (0, f.available_size - 1))
    (st2 : ServerState) (fid2 : String) (u : TusUpload) (rh2 : String)
    (s e : Int)
    (hnof : alookup st2.fileRecs fid2 = none)
    (hu : alookup st2.uploads fid2 = some u)
    (hlt : u.offset < u.size)
    (hrne2 : rh2 ≠ "")
    (hpr2 : parseRangeSpec u.offset (pyReplace rh2 "bytes=" "") =
      some (s, e)) :
    (downloadFile st fid (some rh)).status = 206 ∧
    (downloadFile st2 fid2 (some rh2)).status = 206 := by
  have htr1 : truthy (some rh) = true := by simp [truthy, hrne]
  have htr2 : truthy (some rh2) = true := by simp [truthy, hrne2]
  constructor
  · simp [downloadFile, getFileInfo, hf, htr1, hpr]
  · simp [downloadFile, getFileInfo, hnof, hu, htr2, hpr2]

def demoPartialDlUpload : TusUpload :=
  { file_id := "pp", filename := "c.bin", size := 3, offset := 1,
    created_at := 0, updated_at := 0, expires_at := some 1000,
    is_final := false, storage_path := "uploads/pp", checksum := none,
    mime_type := none, retention := "permanent", retention_ttl := none,
    retention_expires_at := none, download_count := 0, owner_id := none }

def demoPartialDlState : ServerState :=
  { uploads := [("pp", demoPartialDlUpload)], fileRecs := [], locks := [],
    fsUploads := [("pp", [7])], fsFiles := [] }

/-- Witness for C8's amended theorem: full-range requests on the complete
1-byte file and on a partial upload (1 of 3 bytes available) both get
206. -/
theorem download_range_is_206_witness :
    (downloadFile demoDlState "ff" (some "bytes=0-0")).status = 206 ∧
    (downloadFile demoPartialDlState "pp" (some "bytes=0-0")).status = 206 :=
  download_range_is_206 demoDlState "ff" demoFileRec "bytes=0-0" (by decide)
    (by decide) (by decide) (by decide) demoPartialDlState "pp"
    demoPartialDlUpload "bytes=0-0" 0 0 (by decide) (by decide) (by decide)
    (by decide) (by decide)

end EasyTransfer
